import Mathlib

/-!
Verification of the llava_med_api gateway (src/main.py, src/llava_med_api.py,
src/translation.py): a shallow embedding of the worker-stream decoding,
aggregation, SSE relay, registry lookup, payload building and the
final-chunk (NUL-delimited) aggregation variant, with theorems checking the
specified stream-processing properties against the embedded code.
-/

namespace LlavaMed

/-- Model of Python str.strip(): remove leading and trailing whitespace
characters (the embedding uses Char.isWhitespace for the whitespace class). -/
def pyStrip (s : String) : String :=
  ((s.toList.dropWhile Char.isWhitespace).reverse.dropWhile Char.isWhitespace).reverse.asString

/-- Model of Python "".join(l): concatenation of the strings with no separator. -/
def strConcat : List String → String
  | [] => ""
  | s :: rest => s ++ strConcat rest

/-- First n characters of s, model of the Python slice s[:n]. -/
def strTakeChars (s : String) (n : Nat) : String :=
  (s.toList.take n).asString

/-- Characters of s from index n on, model of the Python slice s[n:]. -/
def strDropChars (s : String) (n : Nat) : String :=
  (s.toList.drop n).asString

/-- Model of Python s.rstrip(c): remove every trailing occurrence of c. -/
def rstripChar (s : String) (c : Char) : String :=
  ((s.toList.reverse.dropWhile (fun d => d == c)).reverse).asString

/-- Model of Python s.endswith(suffix). -/
def strEndsWith (s suf : String) : Bool :=
  s.toList.drop (s.length - suf.length) == suf.toList

/-- Whether pat occurs in s starting at character index i. -/
def matchesAt (s pat : List Char) (i : Nat) : Bool :=
  (s.drop i).take pat.length == pat

/-- Model of Python s.rfind(pat): the largest character index at which pat
occurs in s, none when pat does not occur (Python returns -1 there). -/
def lastOccurrence (s pat : String) : Option Nat :=
  ((List.range (s.length + 1)).filter (fun i => matchesAt s.toList pat.toList i)).getLast?

/-- The literal trailing error-code suffix pattern checked at
src/main.py line 116. -/
def errSuffix : String := "\", \"error_code\": 0\x7d"

/-- The instruction template built by the f-string at src/main.py line 67 and
src/llava_med_api.py line 122: image placeholder token, literal prompt,
instruction markers. -/
def instTemplate (prompt : String) : String :=
  "[INST] <image>\n" ++ prompt ++ " [/INST]"

/-- One non-empty line of the worker stream after the parse ladder of
src/main.py lines 86-103: either it parses as a JSON object (with optional
error_code and text fields, the only fields the code reads) or JSON parsing
fails and the raw line is kept.  Line.raw "" stands for an empty physical
line, which the code skips before parsing (the if line: guard). -/
inductive Line where
  | obj (error_code : Option Int) (text : Option String)
  | raw (s : String)
deriving DecidableEq

/-- Texts appended to full_response for one line, src/main.py lines 86-103
(the chat endpoint, lines 178-199, runs the identical ladder): a JSON object
with error_code 0 and a text field contributes the stripped text; an object
with a nonzero or missing error_code, or code 0 without text, contributes
nothing; a non-JSON line contributes the stripped raw line; an empty
physical line is skipped. -/
def lineContribution : Line → List String
  | Line.obj ec txt =>
    match ec with
    | some c =>
      if c = 0 then
        match txt with
        | some t => [pyStrip t]
        | none => []
      else []
    | none => []
  | Line.raw s => if s = "" then [] else [pyStrip s]

/-- The full_response list accumulated over the whole stream, in arrival
order (the append loop of src/main.py lines 82-107). -/
def fullResponse : List Line → List String
  | [] => []
  | l :: ls => lineContribution l ++ fullResponse ls

/-- A fragment carrying usable text: it contributes a non-empty string to the
aggregation buffer. -/
def usableText : Line → Bool
  | Line.obj ec txt =>
    match ec with
    | some c =>
      if c = 0 then
        match txt with
        | some t => pyStrip t != ""
        | none => false
      else false
    | none => false
  | Line.raw s => pyStrip s != ""

/-- A valid structured success fragment with the given text field. -/
def mkText (t : String) : Line := Line.obj (some 0) (some t)

/-- The tail of the generate endpoint, src/main.py lines 109-135: join the
buffer, fail with HTTP 500 when empty, then the suffix/quote trimming of
lines 116-122 followed by the rfind-based template stripping of lines
127-131, which rebinds generated_text from complete_response (so the
trimming of lines 116-122 never reaches the returned value).  Errors carry
the client-visible HTTP status. -/
def aggFinish (full_response : List String) : Except Nat String :=
  let complete_response := strConcat full_response
  if complete_response = "" then Except.error 500
  else
    let generated_text :=
      if strEndsWith complete_response errSuffix
      then strTakeChars complete_response (complete_response.length - errSuffix.length)
      else complete_response
    let generated_text := rstripChar generated_text '"'
    let generated_text :=
      match lastOccurrence complete_response "[/INST]" with
      | some i => pyStrip (strDropChars complete_response (i + 7))
      | none => pyStrip complete_response
    Except.ok generated_text

/-- Aggregation-mode result of the generate endpoint of src/main.py as a
function of the decoded worker stream. -/
def generate_agg (lines : List Line) : Except Nat String :=
  aggFinish (fullResponse lines)

/-- The tail of the chat endpoint, src/main.py lines 201-207: join the
buffer, fail with HTTP 500 when empty, otherwise return it unchanged. -/
def chatFinish (full_response : List String) : Except Nat String :=
  let complete_response := strConcat full_response
  if complete_response = "" then Except.error 500
  else Except.ok complete_response

/-- Aggregation-mode result of the chat endpoint of src/main.py as a
function of the decoded worker stream. -/
def chat_agg (lines : List Line) : Except Nat String :=
  chatFinish (fullResponse lines)

/-- The final SSE sentinel frame, src/llava_med_api.py line 104. -/
def doneFrame : String := "data: [DONE]\n\n"

/-- SSE frames yielded for one line by stream_generator,
src/llava_med_api.py lines 86-103: a success fragment with text yields its
text as a data frame; an object with an error_code but either a nonzero code
or no text yields an error-tagged frame carrying text or the fixed fallback;
an object without error_code yields nothing; a non-JSON line yields its
stripped text; an empty physical line is skipped. -/
def frameOf : Line → List String
  | Line.obj ec txt =>
    match ec with
    | some c =>
      if c = 0 then
        match txt with
        | some t => ["data: " ++ t ++ "\n\n"]
        | none => ["data: Error: Unknown error\n\n"]
      else
        ["data: Error: " ++ txt.getD "Unknown error" ++ "\n\n"]
    | none => []
  | Line.raw s => if s = "" then [] else ["data: " ++ pyStrip s ++ "\n\n"]

/-- All SSE frames for a list of decoded lines in arrival order. -/
def framesOf : List Line → List String
  | [] => []
  | l :: ls => frameOf l ++ framesOf ls

/-- Output of stream_generator, src/llava_med_api.py lines 82-104, on a
stream whose decoded fragments are lines: one frame group per line in
arrival order; when the underlying iteration finishes normally the sentinel
frame of line 104 follows, and when the line iterator raises a transport
error (abnormal end, normalEnd = false) the generator propagates the
exception after the frames already yielded, so no sentinel is emitted. -/
def sseRun (lines : List Line) (normalEnd : Bool) : List String :=
  match lines with
  | [] => if normalEnd then [doneFrame] else []
  | l :: ls => frameOf l ++ sseRun ls normalEnd

/-- One NUL-delimited piece of the last byte chunk, after the ladder of
src/llava_med_api.py lines 148-159: whitespace-only pieces are skipped
before parsing, pieces that fail JSON parsing are skipped, parsed objects
without a text field are skipped, and an object with a text field carries
that text. -/
inductive NulPiece where
  | blank
  | invalidJson (s : String)
  | noTextField
  | withText (t : String)
deriving DecidableEq

/-- A decoded byte chunk: its NUL-separated pieces in order. -/
abbrev Chunk := List NulPiece

/-- Whether a piece parses as a JSON object carrying a text field. -/
def hasTextField : NulPiece → Bool
  | NulPiece.withText _ => true
  | _ => false

/-- First piece carrying a text field, mirroring the break of line 157. -/
def firstWithText : List NulPiece → Option String
  | [] => none
  | NulPiece.withText t :: _ => some t
  | _ :: rest => firstWithText rest

/-- The full_text selected from one chunk by the reversed scan of
src/llava_med_api.py lines 149-159: the text of the last piece that parses
and has a text field, "" when there is none (full_text keeps its initial
value). -/
def fullTextOfChunk (c : Chunk) : String :=
  (firstWithText c.reverse).getD ""

/-- Remove every occurrence of pat, scanning left to right (model of Python
full_text.replace(pat, "") at src/llava_med_api.py line 166).  The fuel
argument only bounds the iteration count: every step consumes at least one
character, so fuel = length of the input is enough. -/
def removeAllAux (pat : List Char) : Nat → List Char → List Char
  | 0, l => l
  | _, [] => []
  | fuel + 1, c :: rest =>
    if matchesAt (c :: rest) pat 0
    then removeAllAux pat fuel (rest.drop (pat.length - 1))
    else c :: removeAllAux pat fuel rest

/-- Model of Python s.replace(pat, "") for the non-empty patterns used here. -/
def removeAll (s pat : String) : String :=
  (removeAllAux pat.toList s.length s.toList).asString

/-- The final-chunk-only aggregation variant, src/llava_med_api.py lines
137-171, as a function of the received byte chunks (chunks),
the request prompt and the translation collaborator.  No chunks at all fail
with HTTP 500 (lines 141-143); only chunks[-1] is decoded and scanned in
reverse for the last piece with a text field (lines 145-159); an empty
selection fails with HTTP 500 (lines 161-163); otherwise the echoed template
is removed, the text stripped and translated.  translate returning none
models translate_text raising: the exception reaches the catch-all handler
of lines 179-181, which surfaces HTTP 500. -/
def generate_llava (chunks : List Chunk) (prompt : String)
    (translate : String → Option String) : Except Nat String :=
  match chunks.getLast? with
  | none => Except.error 500
  | some last_chunk =>
    let full_text := fullTextOfChunk last_chunk
    if full_text = "" then Except.error 500
    else
      let generated_text := pyStrip (removeAll full_text (instTemplate prompt))
      match translate generated_text with
      | some translated_text => Except.ok translated_text
      | none => Except.error 500

/-- Observable behaviour of one registry lookup, src/main.py lines 30-38:
either the transport fails while posting, or the registry answers with a
status code and a JSON body that may or may not carry an address field. -/
inductive RegistryReply where
  | transportError
  | httpResponse (status : Nat) (address : Option String)
deriving DecidableEq

/-- An exception escaping a component into an endpoint handler: a FastAPI
HTTPException with its status, a bare httpx.RequestError, or any other
exception (for example the KeyError from a missing address field). -/
inductive Exc where
  | httpException (status : Nat)
  | requestError
  | otherExc
deriving DecidableEq

/-- get_worker_address, src/main.py lines 30-38 (src/llava_med_api.py lines
61-69 are identical): a transport failure or a non-2xx status raises
httpx.HTTPError, caught and turned into HTTPException 503; on a 2xx reply
the address field is returned, and when it is missing the subscript raises a
KeyError that the function does not catch. -/
def get_worker_address : RegistryReply → Except Exc String
  | RegistryReply.transportError => Except.error (Exc.httpException 503)
  | RegistryReply.httpResponse st addr =>
    if 200 ≤ st ∧ st < 300 then
      match addr with
      | some a => Except.ok a
      | none => Except.error Exc.otherExc
    else Except.error (Exc.httpException 503)

/-- The endpoint except-ladder of src/main.py lines 137-145 (and 209-217):
a bare httpx.RequestError maps to 503; FastAPI HTTPException subclasses
Exception and is not an httpx.RequestError, so it falls to the catch-all of
lines 143-145, which replaces it with HTTPException 500; so does every other
exception. -/
def endpointStatus : Exc → Nat
  | Exc.requestError => 503
  | Exc.httpException _ => 500
  | Exc.otherExc => 500

/-- Client-visible outcome of a registry lookup performed inside the generate
or chat endpoint try-block: an exception raised by get_worker_address is
mapped by the endpoint except-ladder. -/
def clientStatusOfLookup (r : RegistryReply) : Except Nat String :=
  (get_worker_address r).mapError endpointStatus

/-- The worker wire payload, src/main.py lines 65-73 (src/llava_med_api.py
lines 120-128 are identical).  The numeric sampling parameters are the exact
literal constants of the source, embedded as rationals. -/
structure WorkerPayload where
  model : String
  prompt : String
  temperature : ℚ
  top_p : ℚ
  max_new_tokens : Nat
  stop : String
  images : List String
deriving DecidableEq

/-- Payload built for a single-turn generate request, src/main.py
lines 65-73. -/
def buildPayload (prompt : String) (base64_image : String) : WorkerPayload :=
  { model := "llava-med-v1.5-mistral-7b"
  , prompt := instTemplate prompt
  , temperature := 0.2
  , top_p := 0.7
  , max_new_tokens := 512
  , stop := "</s>"
  , images := [base64_image] }

/-- Modelled from the amended claim C1: the cleanup keeps only the text after
the last occurrence of the closing instruction marker (the whole string when
the marker is absent), whitespace-stripped; no quote or error-code-suffix
trimming reaches the result. -/
def stripAfterLastInst (s : String) : String :=
  match lastOccurrence s "[/INST]" with
  | some i => pyStrip (strDropChars s (i + 7))
  | none => pyStrip s

/-- Modelled from claim C1 as stated: keep only the text after the last
occurrence of the closing instruction marker, then trim the trailing
error-code suffix pattern if present, then trailing stray quote characters. -/
def claimedCleanup (s : String) : String :=
  let afterInst :=
    match lastOccurrence s "[/INST]" with
    | some i => strDropChars s (i + 7)
    | none => s
  let noSuffix :=
    if strEndsWith afterInst errSuffix
    then strTakeChars afterInst (afterInst.length - errSuffix.length)
    else afterInst
  rstripChar noSuffix '"'

instance {α β : Type} [DecidableEq α] [DecidableEq β] : DecidableEq (Except α β) :=
  fun a b =>
    match a, b with
    | Except.error x, Except.error y =>
      if h : x = y then Decidable.isTrue (by rw [h])
      else Decidable.isFalse (fun hc => h (Except.error.inj hc))
    | Except.error _, Except.ok _ => Decidable.isFalse (fun hc => Except.noConfusion hc)
    | Except.ok _, Except.error _ => Decidable.isFalse (fun hc => Except.noConfusion hc)
    | Except.ok x, Except.ok y =>
      if h : x = y then Decidable.isTrue (by rw [h])
      else Decidable.isFalse (fun hc => h (Except.ok.inj hc))

/-- A line never classified as usable text contributes only empty strings to
the aggregation buffer. -/
theorem contribution_all_empty (l : Line) (h : usableText l = false) :
    ∀ t ∈ lineContribution l, t = "" := by
  intro t ht
  cases l with
  | obj ec txt =>
    cases ec with
    | none => simp [lineContribution] at ht
    | some c =>
      by_cases hc0 : c = 0
      · subst hc0
        cases txt with
        | none => simp [lineContribution] at ht
        | some u =>
          simp [lineContribution] at ht
          subst ht
          simpa [usableText] using h
      · simp [lineContribution, hc0] at ht
  | raw s =>
    by_cases hs : s = ""
    · simp [lineContribution, hs] at ht
    · simp [lineContribution, hs] at ht
      subst ht
      simpa [usableText] using h

/-- When no line of the stream is usable, every buffered string is empty. -/
theorem fullResponse_all_empty (lines : List Line)
    (h : ∀ l ∈ lines, usableText l = false) :
    ∀ t ∈ fullResponse lines, t = "" := by
  induction lines with
  | nil => intro t ht; simp [fullResponse] at ht
  | cons l ls ih =>
    intro t ht
    simp only [fullResponse] at ht
    rcases List.mem_append.mp ht with h1 | h2
    · exact contribution_all_empty l (h l (by simp)) t h1
    · exact ih (fun x hx => h x (by simp [hx])) t h2

/-- Joining a list of empty strings yields the empty string. -/
theorem strConcat_all_empty (L : List String) (h : ∀ t ∈ L, t = "") :
    strConcat L = "" := by
  induction L with
  | nil => rfl
  | cons a L ih =>
    have ha : a = "" := h a (by simp)
    subst ha
    have hrest := ih (fun t ht => h t (by simp [ht]))
    simp only [strConcat]
    rw [hrest]
    rfl

/-- The aggregation buffer distributes over stream concatenation. -/
theorem fullResponse_append (xs ys : List Line) :
    fullResponse (xs ++ ys) = fullResponse xs ++ fullResponse ys := by
  induction xs with
  | nil => simp [fullResponse]
  | cons l ls ih => simp [fullResponse, ih]

/-- On a stream of valid success fragments, the buffer is the list of
whitespace-stripped text fields in order. -/
theorem fullResponse_map_mkText (ts : List String) :
    fullResponse (ts.map mkText) = ts.map pyStrip := by
  induction ts with
  | nil => rfl
  | cons t ts ih => simp [fullResponse, mkText, lineContribution, ih]

/-- SSE output distributes over stream concatenation: the frames of a prefix
come first, untouched. -/
theorem sseRun_append (xs ys : List Line) (b : Bool) :
    sseRun (xs ++ ys) b = framesOf xs ++ sseRun ys b := by
  induction xs with
  | nil => simp [framesOf]
  | cons l ls ih => simp [sseRun, framesOf, ih]

/-- The reversed scan skips every piece without a text field. -/
theorem firstWithText_of_skips (as l : List NulPiece)
    (h : ∀ p ∈ as, hasTextField p = false) :
    firstWithText (as ++ l) = firstWithText l := by
  induction as with
  | nil => rfl
  | cons p ps ih =>
    have hp : hasTextField p = false := h p (by simp)
    have hrec := ih (fun q hq => h q (by simp [hq]))
    cases p with
    | blank => simpa [firstWithText] using hrec
    | invalidJson s => simpa [firstWithText] using hrec
    | noTextField => simpa [firstWithText] using hrec
    | withText t => simp [hasTextField] at hp

/-- The final-chunk variant looks only at the last received chunk. -/
theorem llava_last_only (cs : List Chunk) (c : Chunk) (p : String)
    (tr : String → Option String) :
    generate_llava (cs ++ [c]) p tr = generate_llava [c] p tr := by
  simp [generate_llava, List.getLast?_concat]

/-- Claim C1, as stated, is false on the code: the trailing-quote and
error-code-suffix trimming is computed but overwritten by the rfind-based
stripping, and each text field is whitespace-stripped before joining.  On
the stream of two valid success fragments below, the generate endpoint
returns the suffix-bearing, whitespace-collapsed string, not the cleaned
string the claim predicts for the concatenation of the raw text fields. -/
theorem c1_counterexample :
    generate_agg [mkText "x[/INST] a ", mkText "b\", \"error_code\": 0\x7d"]
      = Except.ok "ab\", \"error_code\": 0\x7d" ∧
    claimedCleanup ("x[/INST] a " ++ "b\", \"error_code\": 0\x7d") = " a b" ∧
    ("ab\", \"error_code\": 0\x7d" : String) ≠ " a b" := by
  refine ⟨by decide, by decide, by decide⟩

/-- Claim C1 (amended): for every worker stream of valid structured fragments
with status code 0 and a text field whose joined stripped texts are
non-empty, the aggregation-mode result of the generate endpoint is the
concatenation of the whitespace-stripped text fields in arrival order, with
only the text after the last occurrence of the closing instruction marker
kept (the whole string when the marker is absent), whitespace-stripped; the
trailing-quote and error-code-suffix trimming never reaches the returned
value. -/
theorem c1_amended_theorem (ts : List String)
    (h : strConcat (ts.map pyStrip) ≠ "") :
    generate_agg (ts.map mkText)
      = Except.ok (stripAfterLastInst (strConcat (ts.map pyStrip))) := by
  have e := fullResponse_map_mkText ts
  simp only [generate_agg, aggFinish, stripAfterLastInst, e]
  rw [if_neg h]

/-- Witness for the amended claim C1 at a concrete two-fragment stream. -/
theorem c1_witness :
    strConcat (["Hello ", "world"].map pyStrip) ≠ "" ∧
    generate_agg (["Hello ", "world"].map mkText)
      = Except.ok (stripAfterLastInst (strConcat (["Hello ", "world"].map pyStrip))) :=
  ⟨by decide, c1_amended_theorem ["Hello ", "world"] (by decide)⟩

/-- Claim C2, as stated, is false on the code in its last conjunct: the
generate endpoint can return a success whose generated_text is empty,
because the emptiness check of src/main.py line 111 runs on the joined
buffer before the template stripping of lines 127-131.  A single valid
success fragment whose text is exactly the closing marker produces a
non-empty buffer equal to the marker, and the endpoint returns
generated_text = "". -/
theorem c2_counterexample :
    generate_agg [mkText "[/INST]"] = Except.ok "" := by
  decide

/-- Claim C2 (amended): for every worker stream that yields zero usable text
fragments (including the immediately-empty stream), aggregation mode fails
with HTTP 500 in both the generate and chat endpoints of src/main.py, and
the final-chunk variant of src/llava_med_api.py fails with HTTP 500 both on
an empty chunk list and when the last chunk selects no text; however the
generate endpoint does not guarantee a non-empty generated_text on success,
since the emptiness check precedes template stripping. -/
theorem c2_amended_theorem (lines : List Line) (cs : List Chunk) (c : Chunk)
    (prompt : String) (translate : String → Option String)
    (h1 : ∀ l ∈ lines, usableText l = false)
    (h2 : fullTextOfChunk c = "") :
    generate_agg lines = Except.error 500 ∧
    chat_agg lines = Except.error 500 ∧
    generate_llava [] prompt translate = Except.error 500 ∧
    generate_llava (cs ++ [c]) prompt translate = Except.error 500 := by
  have hcr : strConcat (fullResponse lines) = "" :=
    strConcat_all_empty _ (fullResponse_all_empty lines h1)
  refine ⟨?_, ?_, rfl, ?_⟩
  · simp [generate_agg, aggFinish, hcr]
  · simp [chat_agg, chatFinish, hcr]
  · rw [llava_last_only]
    simp [generate_llava, h2]

/-- Witness for the amended claim C2: the immediately-empty stream and a
last chunk with a single skipped piece. -/
theorem c2_witness :
    generate_agg [] = Except.error 500 ∧
    chat_agg [] = Except.error 500 ∧
    generate_llava [] "q" (fun s => some s) = Except.error 500 ∧
    generate_llava ([] ++ [[NulPiece.blank]]) "q" (fun s => some s)
      = Except.error 500 :=
  c2_amended_theorem [] [] [NulPiece.blank] "q" (fun s => some s)
    (by intro l hl; simp at hl) (by decide)

/-- Claim C3, as stated, is false on the code in its abnormal-end part: when
the worker stream ends abnormally (the line iterator raises) after one
fragment was decoded, stream_generator propagates the exception after the
frames already yielded and the sentinel frame of src/llava_med_api.py line
104 is never emitted. -/
theorem c3_counterexample :
    sseRun [Line.obj (some 0) (some "Hello")] false = ["data: Hello\n\n"] ∧
    (sseRun [Line.obj (some 0) (some "Hello")] false).getLast? ≠ some doneFrame := by
  refine ⟨by decide, by decide⟩

/-- Claim C3 (amended): in SSE mode the emitted frames are exactly the
per-fragment frames in decode order, with no reordering, batching or
dropping; when the underlying stream ends normally the output is those
frames followed by exactly one final sentinel frame; when the stream ends
abnormally the already-emitted frames stand but no sentinel follows. -/
theorem c3_amended_theorem (lines : List Line) :
    sseRun lines true = framesOf lines ++ [doneFrame] ∧
    (sseRun lines true).getLast? = some doneFrame ∧
    sseRun lines false = framesOf lines := by
  have h1 : ∀ ls : List Line, sseRun ls true = framesOf ls ++ [doneFrame] := by
    intro ls
    induction ls with
    | nil => rfl
    | cons l ls ih => simp [sseRun, framesOf, ih]
  have h3 : ∀ ls : List Line, sseRun ls false = framesOf ls := by
    intro ls
    induction ls with
    | nil => rfl
    | cons l ls ih => simp [sseRun, framesOf, ih]
  exact ⟨h1 lines, by rw [h1 lines]; exact List.getLast?_concat _, h3 lines⟩

/-- Claim C4: a non-empty line that fails structured parsing is not dropped:
in SSE mode the stripped raw line is forwarded verbatim as a data frame at
its position, and in aggregation mode the stripped raw line contributes to
the buffer at its position in arrival order. -/
theorem c4_theorem (s : String) (xs ys : List Line) (b : Bool) (h : s ≠ "") :
    frameOf (Line.raw s) = ["data: " ++ pyStrip s ++ "\n\n"] ∧
    sseRun (xs ++ Line.raw s :: ys) b
      = framesOf xs ++ ("data: " ++ pyStrip s ++ "\n\n") :: sseRun ys b ∧
    fullResponse (xs ++ Line.raw s :: ys)
      = fullResponse xs ++ pyStrip s :: fullResponse ys := by
  have hf : frameOf (Line.raw s) = ["data: " ++ pyStrip s ++ "\n\n"] := by
    simp [frameOf, h]
  refine ⟨hf, ?_, ?_⟩
  · rw [sseRun_append]
    simp [sseRun, hf]
  · rw [fullResponse_append]
    simp [fullResponse, lineContribution, h]

/-- Witness for claim C4 at a concrete non-JSON line between two other
lines. -/
theorem c4_witness :
    ("plain worker text" : String) ≠ "" ∧
    (frameOf (Line.raw "plain worker text")
        = ["data: " ++ pyStrip "plain worker text" ++ "\n\n"] ∧
      sseRun ([mkText "a"] ++ Line.raw "plain worker text" :: [Line.raw ""]) true
        = framesOf [mkText "a"]
            ++ ("data: " ++ pyStrip "plain worker text" ++ "\n\n")
              :: sseRun [Line.raw ""] true ∧
      fullResponse ([mkText "a"] ++ Line.raw "plain worker text" :: [Line.raw ""])
        = fullResponse [mkText "a"]
            ++ pyStrip "plain worker text" :: fullResponse [Line.raw ""]) :=
  ⟨by decide, c4_theorem "plain worker text" [mkText "a"] [Line.raw ""] true (by decide)⟩

/-- Claim C5: a structured fragment with a nonzero status code, or lacking
the status code field, or with code 0 but no text field, contributes nothing
to the aggregation buffer, and the whole aggregation result of both the
generate and chat endpoints is as if the fragment were absent — it never
aborts the request by itself and decoding of the surrounding lines is
unaffected. -/
theorem c5_theorem (ec : Option Int) (txt : Option String) (xs ys : List Line)
    (h : ec ≠ some 0 ∨ txt = none) :
    lineContribution (Line.obj ec txt) = [] ∧
    generate_agg (xs ++ Line.obj ec txt :: ys) = generate_agg (xs ++ ys) ∧
    chat_agg (xs ++ Line.obj ec txt :: ys) = chat_agg (xs ++ ys) := by
  have hc : lineContribution (Line.obj ec txt) = [] := by
    cases ec with
    | none => rfl
    | some c =>
      by_cases hc0 : c = 0
      · subst hc0
        rcases h with h | h
        · exact absurd rfl h
        · subst h; rfl
      · simp [lineContribution, hc0]
  have hfull : fullResponse (xs ++ Line.obj ec txt :: ys)
      = fullResponse (xs ++ ys) := by
    rw [fullResponse_append, fullResponse_append]
    simp [fullResponse, hc]
  exact ⟨hc, by simp [generate_agg, hfull], by simp [chat_agg, hfull]⟩

/-- Witness for claim C5 at a concrete failing fragment between two valid
fragments. -/
theorem c5_witness :
    lineContribution (Line.obj (some 1) (some "worker failure")) = [] ∧
    generate_agg ([mkText "Hi"] ++ Line.obj (some 1) (some "worker failure") :: [mkText " there"])
      = generate_agg ([mkText "Hi"] ++ [mkText " there"]) ∧
    chat_agg ([mkText "Hi"] ++ Line.obj (some 1) (some "worker failure") :: [mkText " there"])
      = chat_agg ([mkText "Hi"] ++ [mkText " there"]) :=
  c5_theorem (some 1) (some "worker failure") [mkText "Hi"] [mkText " there"]
    (Or.inl (by decide))

/-- Claim C6, as stated, is false on the code in two places: a 2xx registry
reply missing the address field raises a KeyError that get_worker_address
does not catch (not the HTTP 503 RegistryUnavailable condition), and every
lookup failure that propagates into the generate or chat endpoint — the
503 HTTPException included, being a subclass of Exception but not of
httpx.RequestError — is rewrapped by the catch-all handler, so the client
receives HTTP 500, not 503: in particular the spec example of a registry
reply with HTTP status 500. -/
theorem c6_counterexample :
    get_worker_address (RegistryReply.httpResponse 200 none)
      = Except.error Exc.otherExc ∧
    Exc.otherExc ≠ Exc.httpException 503 ∧
    clientStatusOfLookup (RegistryReply.httpResponse 500 (some "http://worker:40000"))
      = Except.error 500 ∧
    clientStatusOfLookup (RegistryReply.httpResponse 200 none) = Except.error 500 ∧
    (Except.error 500 : Except Nat String) ≠ Except.error 503 := by
  refine ⟨by decide, by decide, by decide, by decide, by decide⟩

/-- Claim C6 (amended): a transport failure or any non-2xx registry reply
makes get_worker_address fail with an HTTP 503 error (the
RegistryUnavailable condition); a 2xx reply missing the address field makes
it fail with an uncaught KeyError instead; on success it returns the address
string from the reply.  When these failures propagate through the generate
or chat endpoint, the catch-all except clause surfaces each of them to the
client as HTTP 500. -/
theorem c6_amended_theorem (st : Nat) (addr : Option String) (a : String)
    (h : ¬ (200 ≤ st ∧ st < 300)) :
    get_worker_address RegistryReply.transportError
      = Except.error (Exc.httpException 503) ∧
    get_worker_address (RegistryReply.httpResponse st addr)
      = Except.error (Exc.httpException 503) ∧
    get_worker_address (RegistryReply.httpResponse 200 (some a)) = Except.ok a ∧
    get_worker_address (RegistryReply.httpResponse 200 none)
      = Except.error Exc.otherExc ∧
    clientStatusOfLookup (RegistryReply.httpResponse st addr) = Except.error 500 ∧
    clientStatusOfLookup (RegistryReply.httpResponse 200 none) = Except.error 500 ∧
    clientStatusOfLookup RegistryReply.transportError = Except.error 500 := by
  have h2 : get_worker_address (RegistryReply.httpResponse st addr)
      = Except.error (Exc.httpException 503) := by
    simp [get_worker_address, h]
  refine ⟨rfl, h2, by simp [get_worker_address], by simp [get_worker_address], ?_, by decide, rfl⟩
  rw [clientStatusOfLookup, h2]
  rfl

/-- Witness for the amended claim C6 at the spec example status 500. -/
theorem c6_witness :
    get_worker_address RegistryReply.transportError
      = Except.error (Exc.httpException 503) ∧
    get_worker_address (RegistryReply.httpResponse 500 none)
      = Except.error (Exc.httpException 503) ∧
    get_worker_address (RegistryReply.httpResponse 200 (some "http://worker:40000"))
      = Except.ok "http://worker:40000" ∧
    get_worker_address (RegistryReply.httpResponse 200 none)
      = Except.error Exc.otherExc ∧
    clientStatusOfLookup (RegistryReply.httpResponse 500 none) = Except.error 500 ∧
    clientStatusOfLookup (RegistryReply.httpResponse 200 none) = Except.error 500 ∧
    clientStatusOfLookup RegistryReply.transportError = Except.error 500 :=
  c6_amended_theorem 500 none "http://worker:40000" (by decide)

/-- Claim C7: the single-turn generate payload wraps the prompt in the exact
instruction template — image placeholder token, literal prompt, instruction
markers — and carries the fixed default sampling parameters temperature 0.2,
top_p 0.7, max_new_tokens 512 and stop sequence of the source. -/
theorem c7_theorem (p img : String) :
    (buildPayload p img).prompt = "[INST] <image>\n" ++ p ++ " [/INST]" ∧
    (buildPayload p img).temperature = 0.2 ∧
    (buildPayload p img).top_p = 0.7 ∧
    (buildPayload p img).max_new_tokens = 512 ∧
    (buildPayload p img).stop = "</s>" ∧
    (buildPayload p img).model = "llava-med-v1.5-mistral-7b" ∧
    (buildPayload p img).images = [img] :=
  ⟨rfl, rfl, rfl, rfl, rfl, rfl, rfl⟩

/-- Claim C8, as stated, is false on the code: on a stream whose last chunk
carries usable text, a translation failure (translate_text raising) is
caught by the catch-all handler of src/llava_med_api.py lines 179-181 and
the request fails with HTTP 500 instead of succeeding with the untranslated
text. -/
theorem c8_counterexample :
    generate_llava [[NulPiece.withText "hello"]] "q" (fun _ => none)
      = Except.error 500 ∧
    (Except.error 500 : Except Nat String) ≠ Except.ok "hello" := by
  refine ⟨by decide, by decide⟩

/-- Claim C8 (amended): for every generate request of the final-chunk
variant in which the worker produced usable text, a failure of the
translation collaborator takes down the whole response: the exception
reaches the endpoint catch-all and the request fails with HTTP 500; the
untranslated text is never returned. -/
theorem c8_amended_theorem (cs : List Chunk) (c : Chunk) (prompt : String)
    (h : fullTextOfChunk c ≠ "") :
    generate_llava (cs ++ [c]) prompt (fun _ => none) = Except.error 500 := by
  rw [llava_last_only]
  simp [generate_llava, h]

/-- Witness for the amended claim C8 at a concrete usable-text chunk. -/
theorem c8_witness :
    fullTextOfChunk [NulPiece.withText "hi"] ≠ "" ∧
    generate_llava ([] ++ [[NulPiece.withText "hi"]]) "q" (fun _ => none)
      = Except.error 500 :=
  ⟨by decide, c8_amended_theorem [] [NulPiece.withText "hi"] "q" (by decide)⟩

/-- Claim C9: the final-chunk-only aggregation variant examines only the
last byte chunk received — its result is invariant under any earlier
chunks — and the text it selects is the text field of the last NUL-delimited
piece of that chunk that parses and carries a text field; text in earlier
chunks or earlier pieces never contributes. -/
theorem c9_theorem (cs : List Chunk) (c : Chunk) (prompt : String)
    (tr : String → Option String) (xs ys : List NulPiece) (t : String)
    (h : ∀ p ∈ ys, hasTextField p = false) :
    generate_llava (cs ++ [c]) prompt tr = generate_llava [c] prompt tr ∧
    fullTextOfChunk (xs ++ NulPiece.withText t :: ys) = t := by
  refine ⟨llava_last_only cs c prompt tr, ?_⟩
  unfold fullTextOfChunk
  have hrev : (xs ++ NulPiece.withText t :: ys).reverse
      = ys.reverse ++ (NulPiece.withText t :: xs.reverse) := by
    simp
  rw [hrev, firstWithText_of_skips _ _ (fun p hp => h p (List.mem_reverse.mp hp))]
  rfl

/-- Witness for claim C9: a superseded earlier chunk, and a chunk whose last
text-bearing piece follows an unparseable piece and precedes skipped
pieces. -/
theorem c9_witness :
    hasTextField NulPiece.blank = false ∧
    hasTextField NulPiece.noTextField = false ∧
    generate_llava ([[NulPiece.withText "old"]] ++ [[NulPiece.withText "keep"]])
        "q" (fun s => some s)
      = generate_llava [[NulPiece.withText "keep"]] "q" (fun s => some s) ∧
    fullTextOfChunk ([NulPiece.invalidJson "oops"]
        ++ NulPiece.withText "final" :: [NulPiece.blank, NulPiece.noTextField])
      = "final" :=
  ⟨rfl, rfl,
    (c9_theorem [[NulPiece.withText "old"]] [NulPiece.withText "keep"] "q"
      (fun s => some s) [NulPiece.invalidJson "oops"]
      [NulPiece.blank, NulPiece.noTextField] "final" (by decide)).1,
    (c9_theorem [[NulPiece.withText "old"]] [NulPiece.withText "keep"] "q"
      (fun s => some s) [NulPiece.invalidJson "oops"]
      [NulPiece.blank, NulPiece.noTextField] "final" (by decide)).2⟩

/-- Claim C10: in line-oriented aggregation mode of both the generate and
chat endpoints, every usable fragment text is whitespace-stripped before
being appended and the buffered texts are joined with no separator, so
whitespace at fragment boundaries is lost and the aggregate can differ from
the exact concatenation of the raw text fields, as the concrete two-fragment
stream shows. -/
theorem c10_theorem (ts : List String) :
    fullResponse (ts.map mkText) = ts.map pyStrip ∧
    chat_agg (ts.map mkText) = chatFinish (ts.map pyStrip) ∧
    chat_agg [mkText "a ", mkText "b"] = Except.ok "ab" ∧
    generate_agg [mkText "a ", mkText "b"] = Except.ok "ab" ∧
    strConcat ["a ", "b"] = "a b" ∧
    (Except.ok "ab" : Except Nat String) ≠ Except.ok "a b" := by
  refine ⟨fullResponse_map_mkText ts, ?_, by decide, by decide, by decide, by decide⟩
  simp [chat_agg, fullResponse_map_mkText]

end LlavaMed
